import Mathlib

/-
Verification of the response-normalization and validation layer of the
Yandex Wordstat MCP server (src/server.py).

The embedding models Python JSON values as the inductive type `JVal`.
Python dictionaries are modelled as association lists in insertion order
with unique keys (lookup returns the first matching binding).  Python
floats are modelled by `PyFloat`: an exact rational for finite values plus
explicit constructors for the non-finite values `inf`, `-inf` and `nan`
that the `json` module can produce from `Infinity` and `NaN` tokens.
Idealizations (documented at the definitions concerned): conversion of an
arbitrary-precision integer or of a decimal numeral string to a float is
modelled exactly (no rounding to binary64 and no overflow to infinity),
underscore digit separators in numeric strings are not modelled, and
fixed-precision rendering rounds the exact rational value half-to-even.
Python exceptions relevant to the formatters are modelled by `PyExc`.
-/

/-- Python exceptions that can arise in the numeric conversion pipeline of
the formatters: `float(...)` raises `TypeError` or `ValueError`, and
`int(...)` of an infinite float raises `OverflowError`. -/
inductive PyExc where
  | typeError
  | valueError
  | overflowError
deriving DecidableEq, Repr

/-- A Python float: a finite value modelled as an exact rational, or one of
the non-finite values. -/
inductive PyFloat where
  | finite (q : ℚ)
  | inf
  | neginf
  | nan
deriving DecidableEq, Repr

/-- A Python value as produced by parsing JSON (plus `None`). Dictionaries
are association lists in insertion order. -/
inductive JVal where
  | none
  | bool (b : Bool)
  | int (n : ℤ)
  | float (f : PyFloat)
  | str (s : String)
  | list (xs : List JVal)
  | dict (kvs : List (String × JVal))

/-- First binding of key `k` in a dictionary, `Option.none` when absent. -/
def dictFind (kvs : List (String × JVal)) (k : String) : Option JVal :=
  match kvs with
  | [] => Option.none
  | (k2, v) :: rest => if k2 = k then some v else dictFind rest k

/-- Python `d.get(k)`: the bound value, or `None` when the key is absent. -/
def pyGet (kvs : List (String × JVal)) (k : String) : JVal :=
  (dictFind kvs k).getD JVal.none

/-- Python truthiness of a value (`bool(v)`): `None`, `False`, zero, empty
strings and empty containers are falsy; note that `nan` and infinities are
truthy. -/
def truthy : JVal → Bool
  | JVal.none => false
  | JVal.bool b => b
  | JVal.int n => if n = 0 then false else true
  | JVal.float (PyFloat.finite q) => if q = 0 then false else true
  | JVal.float _ => true
  | JVal.str s => if s = "" then false else true
  | JVal.list xs => if xs.isEmpty then false else true
  | JVal.dict kvs => if kvs.isEmpty then false else true

/-- Python `a or b`: `a` when truthy, otherwise `b`. -/
def pyOr (a b : JVal) : JVal := if truthy a then a else b

/-- Characters stripped by Python `float(str)` around the numeral. -/
def isPyWs (c : Char) : Bool :=
  c = ' ' || c = '\t' || c = '\n' || c = '\r' || c = '\x0b' || c = '\x0c'

/-- Numeric value of a list of ASCII digit characters. -/
def digitsVal (cs : List Char) : ℕ :=
  cs.foldl (fun acc c => acc * 10 + (c.toNat - 48)) 0

/-
The rational operations of Batteries (`Rat.add`, `Rat.sub`, `Rat.mul`,
`Rat.inv`) are irreducible, which would keep concrete runs of the model
from evaluating inside proofs.  The following equivalents are built on the
reducible `Rat.divInt` and are proved equal to the standard operations
below (`ratMul_eq_mul` and friends).
-/

/-- Product of two rationals, built on `Rat.divInt` so that it reduces. -/
def ratMul (a b : ℚ) : ℚ := Rat.divInt (a.num * b.num) ((a.den : ℤ) * (b.den : ℤ))

/-- Quotient of two rationals, built on `Rat.divInt` so that it reduces. -/
def ratDiv (a b : ℚ) : ℚ := Rat.divInt (a.num * (b.den : ℤ)) ((a.den : ℤ) * b.num)

/-- Sum of two rationals, built on `Rat.divInt` so that it reduces. -/
def ratAdd (a b : ℚ) : ℚ :=
  Rat.divInt (a.num * (b.den : ℤ) + b.num * (a.den : ℤ)) ((a.den : ℤ) * (b.den : ℤ))

/-- Difference of two rationals, built on `Rat.divInt` so that it
reduces. -/
def ratSub (a b : ℚ) : ℚ := ratAdd a (-b)

/-- Parse an unsigned, already lowercased decimal numeral with optional
fraction and exponent, as accepted by Python `float`.  Idealized: the exact
rational value is returned (no binary64 rounding, no overflow to infinity)
and underscore digit separators are not modelled. -/
def parseUnsigned (cs : List Char) : Option ℚ :=
  let ip := cs.takeWhile Char.isDigit
  let r1 := cs.dropWhile Char.isDigit
  let fr : List Char × List Char :=
    match r1 with
    | '.' :: t => (t.takeWhile Char.isDigit, t.dropWhile Char.isDigit)
    | _ => ([], r1)
  let fp := fr.1
  let r2 := fr.2
  if ip.length + fp.length = 0 then Option.none
  else
    let mant : ℚ := ratAdd (digitsVal ip : ℚ) (ratDiv (digitsVal fp : ℚ) ((10 ^ fp.length : ℕ) : ℚ))
    match r2 with
    | [] => some mant
    | e :: t =>
      if e = 'e' then
        let se : ℤ × List Char :=
          match t with
          | '+' :: t2 => (1, t2)
          | '-' :: t2 => (-1, t2)
          | _ => (1, t)
        let ed := se.2.takeWhile Char.isDigit
        let rest := se.2.dropWhile Char.isDigit
        if ed.length = 0 ∨ rest ≠ [] then Option.none
        else
          let ex : ℤ := se.1 * (digitsVal ed : ℤ)
          some (if 0 ≤ ex then ratMul mant ((10 ^ ex.toNat : ℕ) : ℚ)
                else ratDiv mant ((10 ^ (-ex).toNat : ℕ) : ℚ))
      else Option.none

/-- Python `float(s)` on a string: strip whitespace, optional sign, then a
decimal numeral or a case-insensitive spelling of `inf`, `infinity` or
`nan`. -/
def parseFloat (s : String) : Option PyFloat :=
  let cs := ((s.data.dropWhile isPyWs).reverse.dropWhile isPyWs).reverse
  let sb : Bool × List Char :=
    match cs with
    | '+' :: t => (false, t)
    | '-' :: t => (true, t)
    | _ => (false, cs)
  let neg := sb.1
  let b := sb.2.map Char.toLower
  if b = ['i', 'n', 'f'] ∨ b = ['i', 'n', 'f', 'i', 'n', 'i', 't', 'y'] then
    some (if neg then PyFloat.neginf else PyFloat.inf)
  else if b = ['n', 'a', 'n'] then some PyFloat.nan
  else
    match parseUnsigned b with
    | some q => some (PyFloat.finite (if neg then -q else q))
    | Option.none => Option.none

/-- Python `float(value)` on an arbitrary value: numbers and numeric
strings convert, everything else raises `TypeError` or `ValueError`.
Idealized: integer-to-float conversion is exact. -/
def try_float : JVal → Except PyExc PyFloat
  | JVal.none => Except.error PyExc.typeError
  | JVal.bool b => Except.ok (PyFloat.finite (if b then 1 else 0))
  | JVal.int n => Except.ok (PyFloat.finite (n : ℚ))
  | JVal.float f => Except.ok f
  | JVal.str s =>
    match parseFloat s with
    | some f => Except.ok f
    | Option.none => Except.error PyExc.valueError
  | JVal.list _ => Except.error PyExc.typeError
  | JVal.dict _ => Except.error PyExc.typeError

/-- Floor of a rational as an integer (`Int.fdiv` is floor division). -/
def ratFloor (q : ℚ) : ℤ := q.num.fdiv (q.den : ℤ)

/-- Truncation toward zero, the behaviour of Python `int(float)` on finite
floats. -/
def ratTrunc (q : ℚ) : ℤ := if q < 0 then -(ratFloor (-q)) else ratFloor q

/-- Absolute value of a rational, Python `abs`. -/
def ratAbs (q : ℚ) : ℚ := if q < 0 then -q else q

/-- Python `int(f)` on a float: truncation for finite values, `ValueError`
for `nan`, `OverflowError` for infinities. -/
def intOfFloat : PyFloat → Except PyExc ℤ
  | PyFloat.finite q => Except.ok (ratTrunc q)
  | PyFloat.nan => Except.error PyExc.valueError
  | PyFloat.inf => Except.error PyExc.overflowError
  | PyFloat.neginf => Except.error PyExc.overflowError

/-- Decimal digit as a character. -/
def digitChar : ℕ → Char
  | 0 => '0'
  | 1 => '1'
  | 2 => '2'
  | 3 => '3'
  | 4 => '4'
  | 5 => '5'
  | 6 => '6'
  | 7 => '7'
  | 8 => '8'
  | _ => '9'

/-- Decimal digits of a natural number, most significant first, driven by
explicit fuel so that it reduces by `rfl`. -/
def natDigitsAux : ℕ → ℕ → List Char
  | 0, _ => []
  | fuel + 1, n =>
    if n < 10 then [digitChar n] else natDigitsAux fuel (n / 10) ++ [digitChar (n % 10)]

/-- Decimal digit characters of a natural number. -/
def natChars (n : ℕ) : List Char := natDigitsAux (n + 1) n

/-- Decimal rendering of a natural number. -/
def natStr (n : ℕ) : String := String.mk (natChars n)

/-- Insert a comma after every third digit; the input is the reversed digit
list and `k` counts digits emitted since the last comma. -/
def commaGroup : List Char → ℕ → List Char
  | [], _ => []
  | c :: rest, k =>
    if k = 3 then ',' :: c :: commaGroup rest 1 else c :: commaGroup rest (k + 1)

/-- Python `f-string` rendering of an integer with `,` thousands grouping. -/
def intWithCommas (n : ℤ) : String :=
  (if n < 0 then "-" else "") ++ String.mk ((commaGroup (natChars n.natAbs).reverse 0).reverse)

/-- Round half to even, the rounding used when Python formats a float with
a fixed number of decimal places.  Idealized to the exact rational value. -/
def rhe (x : ℚ) : ℤ :=
  let f := ratFloor x
  let r := ratSub x (f : ℚ)
  if r < mkRat 1 2 then f
  else if mkRat 1 2 < r then f + 1
  else if f % 2 = 0 then f else f + 1

/-- Left-pad a digit list with zeros to width `k`. -/
def padZeros (k : ℕ) (cs : List Char) : List Char :=
  List.replicate (k - cs.length) '0' ++ cs

/-- Fixed-precision decimal rendering of a rational, the model of the
Python format specification with `prec` fractional digits. -/
def formatFixed (q : ℚ) (prec : ℕ) : String :=
  let m : ℕ := (rhe (ratMul (ratAbs q) ((10 ^ prec : ℕ) : ℚ))).toNat
  let sign : String := if q < 0 then "-" else ""
  if prec = 0 then sign ++ natStr m
  else sign ++ natStr (m / 10 ^ prec) ++ "." ++ String.mk (padZeros prec (natChars (m % 10 ^ prec)))

/-- Model of `format_count` (src/server.py:458): `int(float(value))` rendered
with thousands separators; `TypeError`/`ValueError` are caught and yield the
sentinel, any other exception (the `OverflowError` from an infinite float)
escapes as `Except.error`. -/
def format_count (value : JVal) : Except PyExc String :=
  match try_float value with
  | Except.error PyExc.typeError => Except.ok "n/a"
  | Except.error PyExc.valueError => Except.ok "n/a"
  | Except.error e => Except.error e
  | Except.ok f =>
    match intOfFloat f with
    | Except.ok n => Except.ok (intWithCommas n)
    | Except.error PyExc.typeError => Except.ok "n/a"
    | Except.error PyExc.valueError => Except.ok "n/a"
    | Except.error e => Except.error e

/-- Rendering of a Python float by the percentage format specification with
two fractional digits: multiply by 100, fixed two decimals, percent sign. -/
def fmtPctFloat : PyFloat → String
  | PyFloat.finite q => formatFixed (ratMul q 100) 2 ++ "%"
  | PyFloat.nan => "nan%"
  | PyFloat.inf => "inf%"
  | PyFloat.neginf => "-inf%"

/-- Python `abs(number) <= 1` on a float; every comparison with `nan` is
false, and infinities compare large. -/
def pyAbsLe1 : PyFloat → Bool
  | PyFloat.finite q => if ratAbs q ≤ 1 then true else false
  | _ => false

/-- Python `number / 100.0` on a float. -/
def pyDiv100 : PyFloat → PyFloat
  | PyFloat.finite q => PyFloat.finite (ratDiv q 100)
  | f => f

/-- Model of `format_percentage` (src/server.py:467): parse as float, apply
the fraction heuristic controlled by `assume_fraction`, and render with the
two-decimal percentage format; unparseable values yield the sentinel. -/
def format_percentage (value : JVal) (assume_fraction : Option Bool) : String :=
  match try_float value with
  | Except.error _ => "n/a"
  | Except.ok f =>
    match assume_fraction with
    | some true => fmtPctFloat f
    | some false => fmtPctFloat (pyDiv100 f)
    | Option.none => if pyAbsLe1 f then fmtPctFloat f else fmtPctFloat (pyDiv100 f)

/-- Rendering of a Python float by the fixed-point format specification. -/
def fmtFixedFloat : PyFloat → ℕ → String
  | PyFloat.finite q, prec => formatFixed q prec
  | PyFloat.nan, _ => "nan"
  | PyFloat.inf, _ => "inf"
  | PyFloat.neginf, _ => "-inf"

/-- Model of `format_decimal` (src/server.py:482): parse as float and render
with a fixed precision; unparseable values yield the sentinel. -/
def format_decimal (value : JVal) (precision : ℕ) : String :=
  match try_float value with
  | Except.error _ => "n/a"
  | Except.ok f => fmtFixedFloat f precision

/-- The ordered envelope key set of `unwrap_response`. -/
def envelopeKeys : List String := ["result", "data", "response"]

/-- First envelope key present in the dictionary, with its value: the model
of the `for key in keys: if key in current: ... break` loop. -/
def firstEnvelope : List String → List (String × JVal) → Option JVal
  | [], _ => Option.none
  | k :: rest, kvs =>
    match dictFind kvs k with
    | some v => some v
    | Option.none => firstEnvelope rest kvs

/-- One-step-bounded unwrapping with explicit fuel: the model of the
`while isinstance(current, dict) and depth < 5` loop. -/
def unwrapAux : ℕ → JVal → JVal
  | 0, v => v
  | fuel + 1, v =>
    match v with
    | JVal.dict kvs =>
      match firstEnvelope envelopeKeys kvs with
      | some w => unwrapAux fuel w
      | Option.none => JVal.dict kvs
    | _ => v

/-- Model of `unwrap_response` (src/server.py:426). -/
def unwrap_response (v : JVal) : JVal := unwrapAux 5 v

/-- Spec-side formulation of one unwrap step, following the words of the
spec: the first matching key among the ordered key set, when the value is
an object. -/
def unwrapStepSpec (v : JVal) : Option JVal :=
  match v with
  | JVal.dict kvs =>
    match envelopeKeys.find? (fun k => (dictFind kvs k).isSome) with
    | some k => dictFind kvs k
    | Option.none => Option.none
  | _ => Option.none

/-- Spec-side iteration: descend while a key matches, up to the depth
bound. -/
def unwrapIterSpec : ℕ → JVal → JVal
  | 0, v => v
  | n + 1, v =>
    match unwrapStepSpec v with
    | some w => unwrapIterSpec n w
    | Option.none => v

/-- Spec-side formulation of envelope unwrapping: at most 5 descents
through the first matching key, stopping when none matches. -/
def unwrapEnvelopeSpec (v : JVal) : JVal := unwrapIterSpec 5 v

/-- First candidate key whose value is an array: the model of the candidate
loop of `extract_sequence`. -/
def findCandidate : List String → List (String × JVal) → Option (List JVal)
  | [], _ => Option.none
  | k :: rest, kvs =>
    match dictFind kvs k with
    | some (JVal.list xs) => some xs
    | some _ => findCandidate rest kvs
    | Option.none => findCandidate rest kvs

/-- First array-valued entry of the dictionary in iteration order: the
model of the fallback loop of `extract_sequence`. -/
def firstListValue : List (String × JVal) → Option (List JVal)
  | [] => Option.none
  | (_, JVal.list xs) :: _ => some xs
  | _ :: rest => firstListValue rest

/-- Model of `extract_sequence` (src/server.py:442). -/
def extract_sequence (data : JVal) (candidate_keys : List String) : List JVal :=
  match data with
  | JVal.dict kvs =>
    match findCandidate candidate_keys kvs with
    | some xs => xs
    | Option.none =>
      match firstListValue kvs with
      | some xs => xs
      | Option.none => []
  | JVal.list xs => xs
  | _ => []

/-- Arrays among optional values, used by the spec-side formulation. -/
def asArray : Option JVal → Option (List JVal)
  | some (JVal.list xs) => some xs
  | _ => Option.none

/-- Spec-side formulation of `extract_sequence`, following the words of the
spec: first candidate key whose value is an array in priority order, else
the first array-valued entry in iteration order, an array itself passes
through, anything else gives the empty sequence. -/
def extractSequenceSpec (data : JVal) (keys : List String) : List JVal :=
  match data with
  | JVal.dict kvs =>
    match (keys.filterMap (fun k => asArray (dictFind kvs k))).head? with
    | some xs => xs
    | Option.none =>
      match ((kvs.map Prod.snd).filterMap (fun v => asArray (some v))).head? with
      | some xs => xs
      | Option.none => []
  | JVal.list xs => xs
  | _ => []

/-- Is the value a JSON object. -/
def isObj : JVal → Bool
  | JVal.dict _ => true
  | _ => false

/-- Is the value a JSON array. -/
def isArr : JVal → Bool
  | JVal.list _ => true
  | _ => false

/-- Python `a or b or ...` over the values of an ordered candidate key
list: the first truthy lookup, else the last lookup result. -/
def chainLookup (kvs : List (String × JVal)) : List String → JVal
  | [] => JVal.none
  | [k] => pyGet kvs k
  | k :: rest => pyOr (pyGet kvs k) (chainLookup kvs rest)

/-- The `shows or Shows or count or Count or volume or Volume` chain of
`get_top_requests` (src/server.py:656). -/
def topRequestsShowsValue (q : List (String × JVal)) : JVal :=
  chainLookup q ["shows", "Shows", "count", "Count", "volume", "Volume"]

/-- The `shows or Shows or count or Count` chain of `get_dynamics`
(src/server.py:796). -/
def dynamicsCountValue (row : List (String × JVal)) : JVal :=
  chainLookup row ["shows", "Shows", "count", "Count"]

/-- The `shows or Shows or count or Count` chain of
`get_regions_distribution` (src/server.py:908). -/
def regionsCountValue (item : List (String × JVal)) : JVal :=
  chainLookup item ["shows", "Shows", "count", "Count"]

/-- Number of days in a month, with the Gregorian leap-year rule used by
`datetime`. -/
def daysInMonth (y m : ℕ) : ℕ :=
  if m = 2 then (if (y % 4 = 0 ∧ y % 100 ≠ 0) ∨ y % 400 = 0 then 29 else 28)
  else if m = 4 ∨ m = 6 ∨ m = 9 ∨ m = 11 then 30
  else 31

/-- Split a character list on a separator character, keeping empty parts,
the behaviour of `str.split` on a single-character separator. -/
def splitChar (c : Char) : List Char → List (List Char)
  | [] => [[]]
  | x :: rest =>
    match splitChar c rest with
    | [] => [[x]]
    | h :: t => if x = c then [] :: h :: t else (x :: h) :: t

/-- Model of `datetime.strptime(s, percent-Y-m-d)` as used by the date
validator: exactly four year digits, one or two month and day digits, the
whole string consumed, and a valid calendar date (year at least 1). -/
def parseDate (s : String) : Option (ℕ × ℕ × ℕ) :=
  match splitChar '-' s.data with
  | [ys, ms, ds] =>
    if ys.length = 4 ∧ ys.all Char.isDigit ∧
       1 ≤ ms.length ∧ ms.length ≤ 2 ∧ ms.all Char.isDigit ∧
       1 ≤ ds.length ∧ ds.length ≤ 2 ∧ ds.all Char.isDigit then
      let y := digitsVal ys
      let m := digitsVal ms
      let d := digitsVal ds
      if 1 ≤ y ∧ 1 ≤ m ∧ m ≤ 12 ∧ 1 ≤ d ∧ d ≤ daysInMonth y m then some (y, m, d)
      else Option.none
    else Option.none
  | _ => Option.none

/-- Total order key of a calendar date; for valid dates it agrees with the
`datetime` comparison used by the cross-field validator. -/
def dateKey : ℕ × ℕ × ℕ → ℕ
  | (y, m, d) => y * 10000 + m * 100 + d

/-- Is date string `a` strictly after date string `b` (both assumed to
parse). -/
def dateAfter (a b : String) : Bool :=
  match parseDate a, parseDate b with
  | some x, some y => if dateKey y < dateKey x then true else false
  | _, _ => false

/-- ASCII uppercasing, the model of `str.upper` on the inputs concerned. -/
def pyUpper (s : String) : String := String.mk (s.data.map Char.toUpper)

/-- Valid device types (`WordstatConstants.VALID_DEVICE_TYPES`). -/
def VALID_DEVICE_TYPES : List String := ["DESKTOP", "MOBILE", "TABLET", "ALL"]

/-- Valid periods (`WordstatConstants.VALID_PERIODS`). -/
def VALID_PERIODS : List String := ["DAILY", "WEEKLY", "MONTHLY"]

/-- Model of the `validate_devices` field validator: uppercase each entry,
reject anything outside the allowed set, an invalid element aborts the
whole list. -/
def validateDevicesList : List String → Except String (List String)
  | [] => Except.ok []
  | d :: rest =>
    let c := pyUpper d
    if VALID_DEVICE_TYPES.contains c then
      (validateDevicesList rest).map (fun t => c :: t)
    else
      Except.error ("Invalid device type \x27" ++ d ++ "\x27. Must be one of: ALL, DESKTOP, MOBILE, TABLET")

/-- Device validation lifted to the optional field. -/
def validateDevices (v : Option (List String)) : Except String (Option (List String)) :=
  match v with
  | Option.none => Except.ok Option.none
  | some ds => (validateDevicesList ds).map some

/-- Raw arguments of the `get_top_requests` tool before validation;
`Option.none` in `limit` stands for an omitted argument. -/
structure TopRequestsArgs where
  phrase : String
  limit : Option ℤ
  regions : Option (List ℤ)
  devices : Option (List String)

/-- The validated parameter set of `get_top_requests`
(class `TopRequestsInput`, src/server.py:157). -/
structure TopRequestsInput where
  phrase : String
  limit : ℤ
  regions : Option (List ℤ)
  devices : Option (List String)
deriving DecidableEq

/-- Model of `TopRequestsInput` validation: `phrase` has minimum length 1
(and no other string constraint), `limit` defaults to 10 and must lie in
[1, 100] with the pydantic bound-naming messages, devices are normalized
and checked.  The model reports the first failure in field order. -/
def validateTopRequests (a : TopRequestsArgs) : Except String TopRequestsInput :=
  if a.phrase.length < 1 then Except.error "String should have at least 1 character"
  else
    let l := a.limit.getD 10
    if l < 1 then Except.error "Input should be greater than or equal to 1"
    else if 100 < l then Except.error "Input should be less than or equal to 100"
    else
      match validateDevices a.devices with
      | Except.error e => Except.error e
      | Except.ok ds => Except.ok ⟨a.phrase, l, a.regions, ds⟩

/-- Raw arguments of the `get_dynamics` tool before validation. -/
structure DynamicsArgs where
  phrase : String
  period : String
  from_date : Option String
  to_date : Option String
  regions : Option (List ℤ)
  devices : Option (List String)

/-- The validated parameter set of `get_dynamics`
(class `DynamicsInput`, src/server.py:192). -/
structure DynamicsInput where
  phrase : String
  period : String
  from_date : Option String
  to_date : Option String
  regions : Option (List ℤ)
  devices : Option (List String)
deriving DecidableEq

/-- Model of the `validate_date_format` field validator. -/
def validateDateField (v : Option String) : Except String (Option String) :=
  match v with
  | Option.none => Except.ok Option.none
  | some s =>
    match parseDate s with
    | some _ => Except.ok (some s)
    | Option.none => Except.error ("Date must be in YYYY-MM-DD format, got: " ++ s)

/-- Model of `DynamicsInput` validation: phrase minimum length 1, period in
the allowed set, both dates must parse, devices normalized, and the
`validate_date_range` model validator rejects a start date strictly after
the end date when both are present. -/
def validateDynamics (a : DynamicsArgs) : Except String DynamicsInput :=
  if a.phrase.length < 1 then Except.error "String should have at least 1 character"
  else if VALID_PERIODS.contains a.period then
    match validateDateField a.from_date with
    | Except.error e => Except.error e
    | Except.ok f =>
      match validateDateField a.to_date with
      | Except.error e => Except.error e
      | Except.ok t =>
        match validateDevices a.devices with
        | Except.error e => Except.error e
        | Except.ok ds =>
          match f, t with
          | some fs, some ts =>
            if dateAfter fs ts then
              Except.error "from_date must be earlier than or equal to to_date"
            else Except.ok ⟨a.phrase, a.period, f, t, a.regions, ds⟩
          | _, _ => Except.ok ⟨a.phrase, a.period, f, t, a.regions, ds⟩
  else Except.error "Input should be \x27DAILY\x27, \x27WEEKLY\x27 or \x27MONTHLY\x27"

/-- An upstream HTTP response as seen by `make_wordstat_request`: status,
body text, and the outcome of `response.json()` (the error carries the
parser message). -/
structure HttpResponse where
  status : ℕ
  body : String
  jsonBody : Except String JVal

/-- Outcome of the single transport attempt. -/
inductive NetOutcome where
  | response (r : HttpResponse)
  | timeoutExc
  | networkExc (msg : String)
  | httpExc (msg : String)
  | otherExc (typeName : String) (msg : String)

/-- Result of one gateway call together with whether a network request was
issued at all. -/
structure CallOutcome where
  result : Except String JVal
  networkAttempted : Bool

/-- The configuration error raised when the OAuth token is empty. -/
def tokenMissingMsg : String :=
  "YANDEX_OAUTH_TOKEN is not configured. Please set it in your .env file or environment variables."

/-- Status-code mapping of `make_wordstat_request` in source order: 200
with JSON, 200 without, 401, 403, 429, 500 and above, then everything
else. -/
def handleStatus (r : HttpResponse) : Except String JVal :=
  if r.status = 200 then
    match r.jsonBody with
    | Except.ok j => Except.ok j
    | Except.error e =>
      Except.error ("Failed to parse JSON response: " ++ e ++ "\nResponse text: " ++ r.body.take 500)
  else if r.status = 401 then
    Except.error "Authentication failed. Your Yandex OAuth token may be invalid or expired.\nPlease check your YANDEX_OAUTH_TOKEN and regenerate it if necessary.\nSee README.md for instructions on obtaining a new token."
  else if r.status = 403 then
    Except.error "Access forbidden. Your OAuth token may not have the required permissions.\nEnsure your Yandex application has the necessary scopes/permissions."
  else if r.status = 429 then
    Except.error "Rate limit exceeded. Please wait a moment and try again.\nSee README.md section on \x27Quota Information\x27 for rate limit details."
  else if 500 ≤ r.status then
    Except.error ("Yandex API server error (status " ++ natStr r.status ++ ").\nThe service may be temporarily unavailable. Please try again later.\nError details: " ++ r.body.take 200)
  else
    Except.error ("Request failed with status " ++ natStr r.status ++ "\nResponse: " ++ r.body.take 500)

/-- Model of `make_wordstat_request` (src/server.py:285): with an empty
token the call fails with the configuration error before any transport
activity; an unsupported method also fails before the request is sent;
otherwise the single transport outcome is mapped to a result.
`timeoutStr` is the rendering of the configured timeout used in the
timeout message. -/
def make_wordstat_request (token endpoint : String) (payload : List (String × JVal))
    (method : String) (net : NetOutcome) (timeoutStr : String) : CallOutcome :=
  if token = "" then
    CallOutcome.mk (Except.error tokenMissingMsg) false
  else if pyUpper method = "POST" ∨ pyUpper method = "GET" then
    match net with
    | NetOutcome.response r => CallOutcome.mk (handleStatus r) true
    | NetOutcome.timeoutExc =>
      CallOutcome.mk (Except.error ("Request timed out after " ++ timeoutStr ++ " seconds.\nThe Yandex API may be slow or unreachable. Please try again.\nYou can increase the timeout by setting REQUEST_TIMEOUT in your .env file.")) true
    | NetOutcome.networkExc m =>
      CallOutcome.mk (Except.error ("Network error occurred: " ++ m ++ "\nPlease check your internet connection and try again.")) true
    | NetOutcome.httpExc m =>
      CallOutcome.mk (Except.error ("HTTP error occurred: " ++ m ++ "\nAn unexpected HTTP error occurred while communicating with Yandex API.")) true
    | NetOutcome.otherExc tn m =>
      CallOutcome.mk (Except.error ("Unexpected error occurred: " ++ tn ++ ": " ++ m ++ "\nPlease check the logs for more details.")) true
  else
    CallOutcome.mk (Except.error ("Unsupported HTTP method: " ++ method)) false

theorem ratMul_eq_mul (a b : ℚ) : ratMul a b = a * b := by
  rw [ratMul, Rat.divInt_eq_div]
  push_cast
  rw [← div_mul_div_comm, Rat.num_div_den, Rat.num_div_den]

theorem ratDiv_eq_div (a b : ℚ) : ratDiv a b = a / b := by
  have hinv : b⁻¹ = (b.den : ℚ) / (b.num : ℚ) := by
    conv_lhs => rw [← Rat.num_div_den b]
    rw [inv_div]
  rw [ratDiv, Rat.divInt_eq_div]
  push_cast
  rw [← div_mul_div_comm, Rat.num_div_den, ← hinv, ← div_eq_mul_inv]

theorem ratAdd_eq_add (a b : ℚ) : ratAdd a b = a + b := by
  have ha : ((a.den : ℚ)) ≠ 0 := Nat.cast_ne_zero.mpr (Rat.den_ne_zero a)
  have hb : ((b.den : ℚ)) ≠ 0 := Nat.cast_ne_zero.mpr (Rat.den_ne_zero b)
  rw [ratAdd, Rat.divInt_eq_div]
  push_cast
  conv_rhs => rw [← Rat.num_div_den a, ← Rat.num_div_den b]
  rw [div_add_div _ _ ha hb]
  congr 1
  ring

theorem ratSub_eq_sub (a b : ℚ) : ratSub a b = a - b := by
  rw [ratSub, ratAdd_eq_add, sub_eq_add_neg]

theorem try_float_no_overflow (v : JVal) : try_float v ≠ Except.error PyExc.overflowError := by
  cases v <;> intro h <;> simp [try_float] at h
  case str s =>
    cases hp : parseFloat s <;> rw [hp] at h <;> simp at h

/-- C1: for every value accepted by float parsing, `format_percentage` with
no fraction hint renders the value scaled by 100 with two decimal places
and a percent suffix when its absolute value is at most 1, and renders the
value divided by 100 and then scaled by 100 (that is, the value unscaled)
when its absolute value exceeds 1; `formatPercentage(0.25)` and
`formatPercentage(25)` are both `25.00%`, and `None` or any unparseable
value yields `n/a`. -/
theorem c1_format_percentage_heuristic :
    (∀ (v : JVal) (q : ℚ), try_float v = Except.ok (PyFloat.finite q) → ratAbs q ≤ 1 →
        format_percentage v Option.none = formatFixed (q * 100) 2 ++ "%")
  ∧ (∀ (v : JVal) (q : ℚ), try_float v = Except.ok (PyFloat.finite q) → 1 < ratAbs q →
        format_percentage v Option.none = formatFixed (q / 100 * 100) 2 ++ "%")
  ∧ format_percentage (JVal.float (PyFloat.finite (mkRat 1 4))) Option.none = "25.00%"
  ∧ format_percentage (JVal.int 25) Option.none = "25.00%"
  ∧ format_percentage JVal.none Option.none = "n/a"
  ∧ (∀ (v : JVal) (e : PyExc), try_float v = Except.error e →
        format_percentage v Option.none = "n/a") := by
  refine ⟨?_, ?_, ?_, ?_, rfl, ?_⟩
  · intro v q h hle
    simp [format_percentage, h, pyAbsLe1, hle, fmtPctFloat, ratMul_eq_mul]
  · intro v q h hgt
    have hn : ¬ ratAbs q ≤ 1 := not_le.mpr hgt
    simp [format_percentage, h, pyAbsLe1, hn, fmtPctFloat, pyDiv100, ratMul_eq_mul, ratDiv_eq_div]
  · decide
  · decide
  · intro v e h
    simp [format_percentage, h]

theorem c1_witness :
    format_percentage (JVal.float (PyFloat.finite (mkRat 1 4))) Option.none
      = formatFixed (mkRat 1 4 * 100) 2 ++ "%" :=
  c1_format_percentage_heuristic.1 (JVal.float (PyFloat.finite (mkRat 1 4))) (mkRat 1 4)
    rfl (by decide)

/-- C2: the claim that the formatters never raise fails on the code:
`format_count` of an infinite float raises `OverflowError` from
`int(float(value))`, because only `TypeError` and `ValueError` are caught;
the sentinel is never produced on this path. -/
theorem c2_format_count_raises_on_infinite_float :
    format_count (JVal.float PyFloat.inf) = Except.error PyExc.overflowError
  ∧ format_count (JVal.float PyFloat.neginf) = Except.error PyExc.overflowError :=
  ⟨rfl, rfl⟩

/-- C5: every value parsing to a finite float is truncated toward zero and
rendered with comma grouping separators; `formatCount(1234567)` is
`1,234,567`, and a value that does not parse as a float yields `n/a`. -/
theorem c5_format_count_truncate_group :
    (∀ (v : JVal) (q : ℚ), try_float v = Except.ok (PyFloat.finite q) →
        format_count v = Except.ok (intWithCommas (ratTrunc q)))
  ∧ format_count (JVal.int 1234567) = Except.ok "1,234,567"
  ∧ format_count (JVal.str "not a number") = Except.ok "n/a"
  ∧ format_count JVal.none = Except.ok "n/a"
  ∧ (∀ (v : JVal) (e : PyExc), try_float v = Except.error e →
        format_count v = Except.ok "n/a") := by
  refine ⟨?_, ?_, rfl, rfl, ?_⟩
  · intro v q h
    simp [format_count, h, intOfFloat]
  · rfl
  · intro v e h
    cases e with
    | typeError => simp [format_count, h]
    | valueError => simp [format_count, h]
    | overflowError => exact absurd h (try_float_no_overflow v)

theorem c5_witness :
    format_count (JVal.float (PyFloat.finite 1234567))
      = Except.ok (intWithCommas (ratTrunc 1234567)) :=
  c5_format_count_truncate_group.1 (JVal.float (PyFloat.finite 1234567)) 1234567 rfl

theorem firstEnvelope_eq_find (keys : List String) (kvs : List (String × JVal)) :
    firstEnvelope keys kvs =
      match keys.find? (fun k => (dictFind kvs k).isSome) with
      | some k => dictFind kvs k
      | Option.none => Option.none := by
  induction keys with
  | nil => rfl
  | cons k rest ih =>
    cases h : dictFind kvs k with
    | none => simp [firstEnvelope, h, List.find?_cons, ih]
    | some v => simp [firstEnvelope, h, List.find?_cons]

theorem unwrapAux_eq_iterSpec (n : ℕ) : ∀ v, unwrapAux n v = unwrapIterSpec n v := by
  induction n with
  | zero => intro v; rfl
  | succ m ih =>
    intro v
    cases v with
    | dict kvs =>
      have hbridge :
          unwrapAux (m + 1) (JVal.dict kvs) =
            match firstEnvelope envelopeKeys kvs with
            | some w => unwrapAux m w
            | Option.none => JVal.dict kvs := rfl
      have hspec :
          unwrapIterSpec (m + 1) (JVal.dict kvs) =
            match unwrapStepSpec (JVal.dict kvs) with
            | some w => unwrapIterSpec m w
            | Option.none => JVal.dict kvs := rfl
      rw [hbridge, hspec, firstEnvelope_eq_find]
      simp only [unwrapStepSpec]
      cases hf : envelopeKeys.find? (fun k => (dictFind kvs k).isSome) with
      | none => rfl
      | some k =>
        cases hd : dictFind kvs k with
        | none => simp [hd]
        | some w => simp [hd, ih]
    | none => rfl
    | bool b => rfl
    | int i => rfl
    | float f => rfl
    | str s => rfl
    | list xs => rfl

/-- C3: envelope unwrapping descends through the first matching key among
the ordered set result, data, response for at most 5 descents, stops as
soon as no key matches, returns the innermost value, passes non-object
inputs through unchanged, and on the doubly nested example returns the
inner items object. -/
theorem c3_unwrap_response_characterization :
    (∀ v, unwrap_response v = unwrapEnvelopeSpec v)
  ∧ (∀ v, isObj v = false → unwrap_response v = v)
  ∧ (∀ kvs, unwrapStepSpec (JVal.dict kvs) = Option.none →
        unwrap_response (JVal.dict kvs) = JVal.dict kvs)
  ∧ unwrap_response (JVal.dict [("result", JVal.dict [("data",
        JVal.dict [("items", JVal.list [JVal.int 1, JVal.int 2])])])])
      = JVal.dict [("items", JVal.list [JVal.int 1, JVal.int 2])] := by
  refine ⟨fun v => unwrapAux_eq_iterSpec 5 v, ?_, ?_, rfl⟩
  · intro v h
    cases v <;> simp [isObj] at h <;> rfl
  · intro kvs h
    have h2 : firstEnvelope envelopeKeys kvs = Option.none := by
      rw [firstEnvelope_eq_find]
      simp only [unwrapStepSpec] at h
      cases hf : envelopeKeys.find? (fun k => (dictFind kvs k).isSome) with
      | none => rfl
      | some k =>
        rw [hf] at h
        exact h
    have hbridge :
        unwrap_response (JVal.dict kvs) =
          match firstEnvelope envelopeKeys kvs with
          | some w => unwrapAux 4 w
          | Option.none => JVal.dict kvs := rfl
    rw [hbridge, h2]

theorem c3_witness : unwrap_response (JVal.str "plain") = JVal.str "plain" :=
  c3_unwrap_response_characterization.2.1 (JVal.str "plain") rfl

theorem findCandidate_eq_head (keys : List String) (kvs : List (String × JVal)) :
    findCandidate keys kvs = (keys.filterMap (fun k => asArray (dictFind kvs k))).head? := by
  induction keys with
  | nil => rfl
  | cons k rest ih =>
    cases h : dictFind kvs k with
    | none => simp [findCandidate, h, asArray, List.filterMap_cons, ih]
    | some v => cases v <;> simp [findCandidate, h, asArray, List.filterMap_cons, ih]

theorem firstListValue_eq_head (kvs : List (String × JVal)) :
    firstListValue kvs = ((kvs.map Prod.snd).filterMap (fun v => asArray (some v))).head? := by
  induction kvs with
  | nil => rfl
  | cons p rest ih =>
    obtain ⟨k, v⟩ := p
    cases v <;> simp [firstListValue, asArray, List.filterMap_cons, ih]

/-- C4: sequence extraction returns the first candidate key holding an
array in priority order, else the first array-valued entry in iteration
order, returns an array input unchanged, returns the empty list on
anything else, and never signals an error (it is a total function); the
two concrete examples of the spec hold. -/
theorem c4_extract_sequence_characterization :
    (∀ data keys, extract_sequence data keys = extractSequenceSpec data keys)
  ∧ (∀ xs keys, extract_sequence (JVal.list xs) keys = xs)
  ∧ (∀ v keys, isObj v = false → isArr v = false → extract_sequence v keys = [])
  ∧ extract_sequence (JVal.dict [("foo", JVal.str "bar"),
        ("items", JVal.list [JVal.int 1, JVal.int 2, JVal.int 3])]) ["items"]
      = [JVal.int 1, JVal.int 2, JVal.int 3]
  ∧ extract_sequence (JVal.dict [("x", JVal.int 1)]) ["items"] = [] := by
  refine ⟨?_, fun xs keys => rfl, ?_, rfl, rfl⟩
  · intro data keys
    cases data with
    | dict kvs =>
      show (match findCandidate keys kvs with
            | some xs => xs
            | Option.none =>
              match firstListValue kvs with
              | some xs => xs
              | Option.none => []) = _
      rw [findCandidate_eq_head, firstListValue_eq_head]
      rfl
    | none => rfl
    | bool b => rfl
    | int i => rfl
    | float f => rfl
    | str s => rfl
    | list xs => rfl
  · intro v keys h1 h2
    cases v <;> simp [isObj] at h1 <;> simp [isArr] at h2 <;> rfl

theorem c4_witness : extract_sequence (JVal.int 3) ["items"] = [] :=
  c4_extract_sequence_characterization.2.2.1 (JVal.int 3) ["items"] rfl rfl

/-- C6 counterexample: a whitespace-only phrase passes `TopRequestsInput`
validation, because only a minimum length of 1 is enforced and no
whitespace check exists; the claim that whitespace-only strings are
rejected is therefore false at phrase " ". -/
theorem c6_counterexample_whitespace_accepted :
    validateTopRequests ⟨" ", Option.none, Option.none, Option.none⟩
      = Except.ok ⟨" ", 10, Option.none, Option.none⟩ := rfl

/-- C6 amended: string-field validation rejects the empty string (pydantic
minimum length 1) in both `TopRequestsInput` and `DynamicsInput`, but
accepts whitespace-only strings unchanged. -/
theorem c6_min_length_one_only :
    (∀ l r d, validateTopRequests ⟨"", l, r, d⟩
        = Except.error "String should have at least 1 character")
  ∧ (∀ pd f t r d, validateDynamics ⟨"", pd, f, t, r, d⟩
        = Except.error "String should have at least 1 character")
  ∧ validateTopRequests ⟨" ", Option.none, Option.none, Option.none⟩
      = Except.ok ⟨" ", 10, Option.none, Option.none⟩
  ∧ validateDynamics ⟨" ", "MONTHLY", Option.none, Option.none, Option.none, Option.none⟩
      = Except.ok ⟨" ", "MONTHLY", Option.none, Option.none, Option.none, Option.none⟩ :=
  ⟨fun l r d => rfl, fun pd f t r d => rfl, rfl, rfl⟩

/-- C7: every integer limit in [1, 100] is accepted (with an otherwise
valid input), every limit below 1 or above 100 is rejected with the
pydantic message naming the violated bound, and an omitted limit defaults
to 10. -/
theorem c7_limit_bounds_and_default :
    (∀ (p : String) (l : ℤ) (r : Option (List ℤ)), 1 ≤ p.length → 1 ≤ l → l ≤ 100 →
        validateTopRequests ⟨p, some l, r, Option.none⟩
          = Except.ok ⟨p, l, r, Option.none⟩)
  ∧ (∀ l : ℤ, l < 1 →
        validateTopRequests ⟨"iphone", some l, Option.none, Option.none⟩
          = Except.error "Input should be greater than or equal to 1")
  ∧ (∀ l : ℤ, 100 < l →
        validateTopRequests ⟨"iphone", some l, Option.none, Option.none⟩
          = Except.error "Input should be less than or equal to 100")
  ∧ validateTopRequests ⟨"iphone", Option.none, Option.none, Option.none⟩
      = Except.ok ⟨"iphone", 10, Option.none, Option.none⟩ := by
  refine ⟨?_, ?_, ?_, rfl⟩
  · intro p l r hp h1 h2
    have hp' : ¬ p.length < 1 := by omega
    have h1' : ¬ l < 1 := by omega
    have h2' : ¬ (100 : ℤ) < l := by omega
    simp [validateTopRequests, hp', h1', h2', validateDevices]
  · intro l h1
    have hp' : ¬ ("iphone".length < 1) := by decide
    simp [validateTopRequests, hp', h1]
  · intro l h2
    have hp' : ¬ ("iphone".length < 1) := by decide
    have h1' : ¬ l < 1 := by omega
    simp [validateTopRequests, hp', h1', h2]

theorem c7_witness :
    validateTopRequests ⟨"iphone", some 50, Option.none, Option.none⟩
      = Except.ok ⟨"iphone", 50, Option.none, Option.none⟩ :=
  c7_limit_bounds_and_default.1 "iphone" 50 Option.none (by decide) (by decide) (by decide)

/-- C8: with an otherwise valid input, a present date field that does not
parse in the modelled strptime format is rejected; when both dates are
present and parse, validation rejects exactly when the start date is
strictly after the end date, and equal dates are accepted. -/
theorem c8_dynamics_date_validation :
    (∀ (p s : String) (t : Option String) (r : Option (List ℤ)) (d : Option (List String)),
        1 ≤ p.length → parseDate s = Option.none →
        validateDynamics ⟨p, "MONTHLY", some s, t, r, d⟩
          = Except.error ("Date must be in YYYY-MM-DD format, got: " ++ s))
  ∧ (∀ (p s : String) (r : Option (List ℤ)) (d : Option (List String)),
        1 ≤ p.length → parseDate s = Option.none →
        validateDynamics ⟨p, "MONTHLY", Option.none, some s, r, d⟩
          = Except.error ("Date must be in YYYY-MM-DD format, got: " ++ s))
  ∧ (∀ (p fs ts : String) (r : Option (List ℤ)) (df dt : ℕ × ℕ × ℕ),
        1 ≤ p.length → parseDate fs = some df → parseDate ts = some dt →
        dateKey dt < dateKey df →
        validateDynamics ⟨p, "MONTHLY", some fs, some ts, r, Option.none⟩
          = Except.error "from_date must be earlier than or equal to to_date")
  ∧ (∀ (p fs ts : String) (r : Option (List ℤ)) (df dt : ℕ × ℕ × ℕ),
        1 ≤ p.length → parseDate fs = some df → parseDate ts = some dt →
        dateKey df ≤ dateKey dt →
        validateDynamics ⟨p, "MONTHLY", some fs, some ts, r, Option.none⟩
          = Except.ok ⟨p, "MONTHLY", some fs, some ts, r, Option.none⟩)
  ∧ validateDynamics ⟨"iphone", "MONTHLY", some "2024-01-01", some "2024-01-01",
        Option.none, Option.none⟩
      = Except.ok ⟨"iphone", "MONTHLY", some "2024-01-01", some "2024-01-01",
        Option.none, Option.none⟩ := by
  have hper : VALID_PERIODS.contains "MONTHLY" = true := by decide
  have hmem : "MONTHLY" ∈ VALID_PERIODS := by decide
  refine ⟨?_, ?_, ?_, ?_, rfl⟩
  · intro p s t r d hp hs
    have hp' : ¬ p.length < 1 := by omega
    simp [validateDynamics, hp', hper, hmem, validateDateField, hs]
  · intro p s r d hp hs
    have hp' : ¬ p.length < 1 := by omega
    simp [validateDynamics, hp', hper, hmem, validateDateField, hs]
  · intro p fs ts r df dt hp hf ht hlt
    have hp' : ¬ p.length < 1 := by omega
    have haft : dateAfter fs ts = true := by simp [dateAfter, hf, ht, hlt]
    simp [validateDynamics, hp', hper, hmem, validateDateField, hf, ht, validateDevices, haft]
  · intro p fs ts r df dt hp hf ht hle
    have hp' : ¬ p.length < 1 := by omega
    have haft : dateAfter fs ts = false := by
      simp [dateAfter, hf, ht]
      omega
    simp [validateDynamics, hp', hper, hmem, validateDateField, hf, ht, validateDevices, haft]

theorem c8_witness :
    validateDynamics ⟨"iphone", "MONTHLY", some "2024-01-01", some "2024-01-02",
        Option.none, Option.none⟩
      = Except.ok ⟨"iphone", "MONTHLY", some "2024-01-01", some "2024-01-02",
        Option.none, Option.none⟩ :=
  c8_dynamics_date_validation.2.2.2.1 "iphone" "2024-01-01" "2024-01-02" Option.none
    (2024, 1, 1) (2024, 1, 2) (by decide) rfl rfl (by decide)

/-- C9: with an empty configured OAuth token the gateway fails immediately
with the configuration error and no network request is issued, for every
endpoint, payload, method and would-be transport outcome; conversely a
call that did reach the network had a non-empty token. -/
theorem c9_empty_token_fails_before_io :
    (∀ (endpoint : String) (payload : List (String × JVal)) (method : String)
        (net : NetOutcome) (ts : String),
        (make_wordstat_request "" endpoint payload method net ts).result
            = Except.error tokenMissingMsg
          ∧ (make_wordstat_request "" endpoint payload method net ts).networkAttempted = false)
  ∧ (∀ (token endpoint : String) (payload : List (String × JVal)) (method : String)
        (net : NetOutcome) (ts : String),
        (make_wordstat_request token endpoint payload method net ts).networkAttempted = true →
        token ≠ "") := by
  refine ⟨fun e p m n ts => ⟨rfl, rfl⟩, ?_⟩
  intro token e p m n ts h heq
  subst heq
  simp [make_wordstat_request] at h

theorem c9_witness :
    ((make_wordstat_request "" "v1/getTopRequests" [] "POST" NetOutcome.timeoutExc "30.0").result
          = Except.error tokenMissingMsg
        ∧ (make_wordstat_request "" "v1/getTopRequests" [] "POST"
            NetOutcome.timeoutExc "30.0").networkAttempted = false)
      ∧ ("tok" : String) ≠ "" :=
  ⟨c9_empty_token_fails_before_io.1 "v1/getTopRequests" [] "POST" NetOutcome.timeoutExc "30.0",
    c9_empty_token_fails_before_io.2 "tok" "e" [] "POST" NetOutcome.timeoutExc "30.0" rfl⟩

/-- C10 counterexample: a zero count in the last candidate key variant is
kept by the or-chain (Python `or` returns its last operand when all are
falsy) and rendered as the string 0, so the claim that a zero count is
never rendered as 0 is false at the records Volume: 0 and Count: 0. -/
theorem c10_counterexample_zero_count_rendered :
    format_count (topRequestsShowsValue [("Volume", JVal.int 0)]) = Except.ok "0"
  ∧ format_count (dynamicsCountValue [("Count", JVal.int 0)]) = Except.ok "0"
  ∧ format_count (regionsCountValue [("Count", JVal.int 0)]) = Except.ok "0" :=
  ⟨rfl, rfl, rfl⟩

/-- C10 amended: a falsy value (such as a present 0) in any candidate key
other than the last falls through to the later variants or to the
missing-value path, so such a zero is treated as absent; only a zero in
the final candidate key (Volume for top requests, Count for dynamics and
regions distribution) is kept and rendered as 0. -/
theorem c10_falsy_chain_fallthrough :
    (∀ (kvs : List (String × JVal)) (k r : String) (rs : List String),
        truthy (pyGet kvs k) = false →
        chainLookup kvs (k :: r :: rs) = chainLookup kvs (r :: rs))
  ∧ (∀ (kvs : List (String × JVal)) (k : String), chainLookup kvs [k] = pyGet kvs k)
  ∧ format_count (topRequestsShowsValue [("shows", JVal.int 0), ("count", JVal.int 7)])
      = Except.ok "7"
  ∧ format_count (topRequestsShowsValue [("shows", JVal.int 0)]) = Except.ok "n/a"
  ∧ format_count (topRequestsShowsValue [("Volume", JVal.int 0)]) = Except.ok "0"
  ∧ format_count (dynamicsCountValue [("shows", JVal.int 0)]) = Except.ok "n/a"
  ∧ format_count (dynamicsCountValue [("Count", JVal.int 0)]) = Except.ok "0" := by
  refine ⟨?_, fun kvs k => rfl, rfl, rfl, rfl, rfl, rfl⟩
  intro kvs k r rs h
  simp [chainLookup, pyOr, h]

theorem c10_witness :
    chainLookup [] ["shows", "Shows"] = chainLookup [] ["Shows"] :=
  c10_falsy_chain_fallthrough.1 [] "shows" "Shows" [] rfl

theorem c6_witness :
    validateTopRequests ⟨"", some 5, Option.none, Option.none⟩
      = Except.error "String should have at least 1 character" :=
  c6_min_length_one_only.1 (some 5) Option.none Option.none
